import Mathlib

/-!
Verification development for the permission shape-inference pass of the
`prusti-dev` repository, as excerpted in `src/`.

The embedding covers two layers of the code:

* `Viper` — the low-level control-flow-graph method builder of
  `src/src/cfg_method.rs` (`CfgMethod`, `CfgBlockIndex`, `Successor`,
  `add_block`, `set_successor`, `successor_to_ast`).
* `Mid` — the mid-level procedure representation consumed by the
  shape-inference pass and its crash diagnostics
  (`src/prusti-viper/src/encoder/high/procedures/inference/mod.rs` and
  `.../inference/visitor/debugging.rs`).

Expressions are opaque to every algorithm treated here except that the
Viper AST factory has a distinguished `false` literal, so expressions are
embedded as a tiny inductive with a `falseLit` constructor and opaque atoms.
-/

/-- Expressions, opaque to the pass except for the distinguished `false`
literal used by the Viper AST factory (`ast.false_lit()`). -/
inductive Expr where
  | falseLit : Expr
  | atom (text : String) : Expr
deriving DecidableEq, Repr

namespace Viper

/-- `CfgBlockIndex` from `src/src/cfg_method.rs`: a copyable handle holding
the owning method's uuid and the block's position.  Uuids are embedded as
naturals. -/
structure CfgBlockIndex where
  method_uuid : Nat
  block_index : Nat
deriving DecidableEq, Repr

/-- `Successor` from `src/src/cfg_method.rs`: the successor descriptor of a
Viper-level basic block.  It has five alternatives. -/
inductive Successor where
  | Unreachable : Successor
  | Return : Successor
  | Goto (target : CfgBlockIndex) : Successor
  | GotoSwitch (successors : List (Expr × CfgBlockIndex)) : Successor
  | GotoIf (test : Expr) (then_target else_target : CfgBlockIndex) : Successor
deriving DecidableEq, Repr

/-- Exhaustive match over all five `Successor` alternatives, recording
which of them are one of the three forms `Return`/`Goto`/`GotoSwitch`. -/
def Successor.isReturnGotoOrSwitch : Successor → Bool
  | .Unreachable => false
  | .Return => true
  | .Goto _ => true
  | .GotoSwitch _ => true
  | .GotoIf _ _ _ => false

/-- Statements of the Viper AST produced by `cfg_method.rs`, restricted to
the forms the translated functions build: `assert`, `goto`, `if`, `seqn`,
labels, and opaque statements coming from the blocks themselves.
Declarations inside a `seqn` are embedded as their names. -/
inductive Stmt where
  | assertStmt (e : Expr) : Stmt
  | goto (label : String) : Stmt
  | ifStmt (test : Expr) (then_branch else_branch : Stmt) : Stmt
  | seqn (stmts : List Stmt) (decls : List String) : Stmt
  | labelStmt (name : String) (invs : List Expr) : Stmt
  | atomStmt (text : String) : Stmt

/-- `CfgBlock` from `src/src/cfg_method.rs`. -/
structure CfgBlock where
  invs : List Expr
  stmt : Stmt
  successor : Successor

/-- `CfgMethod` from `src/src/cfg_method.rs` (the `ast_factory` reference is
implicit in the `Stmt` constructors). -/
structure CfgMethod where
  uuid : Nat
  method_name : String
  formal_args : List String
  formal_returns : List String
  local_vars : List String
  basic_blocks : List CfgBlock

/-- `CfgMethod::add_block`: pushes a block with successor `Unreachable` and
returns the updated method together with an index stamped with this
method's uuid. -/
def CfgMethod.add_block (m : CfgMethod) (invs : List Expr) (stmt : Stmt) :
    CfgMethod × CfgBlockIndex :=
  let index := m.basic_blocks.length
  ({ m with
      basic_blocks :=
        m.basic_blocks ++ [{ invs := invs, stmt := stmt, successor := .Unreachable }] },
   { method_uuid := m.uuid, block_index := index })

/-- `CfgMethod::set_successor`: asserts that the index belongs to this
method (uuid equality) and then writes the successor of the indexed block.
A failed assertion, or an out-of-range index, is a Rust panic, embedded as
`none`. -/
def CfgMethod.set_successor (m : CfgMethod) (index : CfgBlockIndex)
    (successor : Successor) : Option CfgMethod :=
  if index.method_uuid = m.uuid then
    if h : index.block_index < m.basic_blocks.length then
      some { m with
        basic_blocks :=
          m.basic_blocks.set index.block_index
            { m.basic_blocks.get ⟨index.block_index, h⟩ with successor := successor } }
    else none
  else none

/-- `index_to_label` from `src/src/cfg_method.rs`
(`format!("{}_{}_{}", LABEL_PREFIX, method_name, index)` with the constant
label prefix `"__viper"`). -/
def index_to_label (method_name : String) (index : Nat) : String :=
  "__viper" ++ "_" ++ method_name ++ "_" ++ toString index

/-- `return_label` from `src/src/cfg_method.rs`. -/
def return_label (method_name : String) : String :=
  "__viper" ++ "_" ++ method_name ++ "_return"

/-- `successor_to_ast` from `src/src/cfg_method.rs`: lowers a successor
descriptor to a Viper statement; the `GotoSwitch` loop pushes one
conditional goto per (guard, target) pair and then the fallback
`assert false`. -/
def successor_to_ast (method_name : String) : Successor → Stmt
  | .Unreachable => .assertStmt .falseLit
  | .Return => .goto (return_label method_name)
  | .Goto target => .goto (index_to_label method_name target.block_index)
  | .GotoSwitch successors =>
      let skip := Stmt.seqn [] []
      let stmts := successors.map fun (p : Expr × CfgBlockIndex) =>
        Stmt.ifStmt p.1 (.goto (index_to_label method_name p.2.block_index)) skip
      .seqn (stmts ++ [.assertStmt .falseLit]) []
  | .GotoIf test then_target else_target =>
      .ifStmt test
        (.goto (index_to_label method_name then_target.block_index))
        (.goto (index_to_label method_name else_target.block_index))

/-- `block_to_ast` from `src/src/cfg_method.rs`. -/
def block_to_ast (method_name : String) (block : CfgBlock) (index : Nat) : Stmt :=
  .seqn
    [.labelStmt (index_to_label method_name index) block.invs,
     block.stmt,
     successor_to_ast method_name block.successor]
    []

end Viper

namespace Mid

/-- `vir_mid::BasicBlockId`, an opaque label; its `to_string` is the label
itself. -/
abbrev BasicBlockId := String

/-- `vir_mid::Statement` as the crash renderer of
`inference/visitor/debugging.rs` observes it: the `Comment` variant is
distinguished (it is rendered in orange), every other variant is opaque and
carried as its display text. -/
inductive Statement where
  | comment (text : String) : Statement
  | other (text : String) : Statement
deriving DecidableEq, Repr

/-- The `Display` rendering of a statement (`statement.to_string()`). -/
def Statement.display : Statement → String
  | .comment text => text
  | .other text => text

/-- `vir_mid::Successor`: the three alternatives matched exhaustively by
`render_successor` in `inference/visitor/debugging.rs`. -/
inductive Successor where
  | Return : Successor
  | Goto (target : BasicBlockId) : Successor
  | GotoSwitch (targets : List (Expr × BasicBlockId)) : Successor
deriving DecidableEq, Repr

/-- `vir_mid::BasicBlock`: statements plus one successor. -/
structure BasicBlock where
  statements : List Statement
  successor : Successor
deriving DecidableEq, Repr

/-- A procedure declaration as the pass consumes and produces it: name,
parameter and return variables, and labelled basic blocks. -/
structure ProcedureDecl where
  name : String
  parameters : List String
  returns : List String
  basic_blocks : List (BasicBlockId × BasicBlock)
deriving DecidableEq, Repr

end Mid

namespace Graphviz

/-- Node styling in the graph model: `create_node` gives the default style,
`create_node_with_custom_style` attaches a style string. -/
inductive NodeStyle where
  | default : NodeStyle
  | custom (style : String) : NodeStyle
deriving DecidableEq, Repr

/-- A node under construction (`NodeBuilder`): `add_row_sequence` appends a
row of cells; `build` commits the node to the graph. -/
structure NodeBuilder where
  name : String
  style : NodeStyle
  rows : List (List String)
deriving DecidableEq, Repr

/-- Modelled from the spec: the graph sink (`vir_crate::common::graphviz`,
not under `src/`) is "a directed graph in a simple node/edge/styling
model" — nodes carrying styled rows, regular edges, and exit edges. -/
structure Graph where
  columns : List String
  nodes : List NodeBuilder
  regular_edges : List (String × String)
  exit_edges : List (String × String)
deriving DecidableEq, Repr

/-- `Graph::with_columns`. -/
def Graph.with_columns (columns : List String) : Graph :=
  { columns := columns, nodes := [], regular_edges := [], exit_edges := [] }

/-- `NodeBuilder::add_row_sequence`: appends one row to the node. -/
def NodeBuilder.add_row_sequence (nb : NodeBuilder) (row : List String) :
    NodeBuilder :=
  { nb with rows := nb.rows ++ [row] }

/-- `NodeBuilder::build`: commits the node to the graph. -/
def Graph.build (g : Graph) (nb : NodeBuilder) : Graph :=
  { g with nodes := g.nodes ++ [nb] }

/-- `Graph::create_node`: a builder with the default style. -/
def Graph.create_node (name : String) : NodeBuilder :=
  { name := name, style := .default, rows := [] }

/-- `Graph::create_node_with_custom_style`. -/
def Graph.create_node_with_custom_style (name : String) (style : String) :
    NodeBuilder :=
  { name := name, style := .custom style, rows := [] }

/-- `Graph::add_regular_edge`: appends one regular edge. -/
def Graph.add_regular_edge (g : Graph) (source target : String) : Graph :=
  { g with regular_edges := g.regular_edges ++ [(source, target)] }

/-- `Graph::add_exit_edge`: appends one exit edge. -/
def Graph.add_exit_edge (g : Graph) (source text : String) : Graph :=
  { g with exit_edges := g.exit_edges ++ [(source, text)] }

end Graphviz

namespace Inference

open Graphviz

/-- The diagnostics-relevant fields of the traversal `Visitor`
(`inference/visitor/debugging.rs` accesses exactly these): the blocks
assembled so far, the label being processed, the labels already fully
processed, the statements already emitted for the block under
construction, and the crash-graphviz arming flag. -/
structure VisitorState where
  basic_blocks : List (Mid.BasicBlockId × Mid.BasicBlock)
  current_label : Option Mid.BasicBlockId
  successfully_processed_blocks : List Mid.BasicBlockId
  current_statements : List Mid.Statement
  graphviz_on_crash : Bool
deriving DecidableEq, Repr

/-- `Visitor::is_crash_label` from `debugging.rs`. -/
def is_crash_label (st : VisitorState) (label : Mid.BasicBlockId) : Bool :=
  match st.current_label with
  | some crash_label => crash_label = label
  | none => false

/-- `Visitor::create_node_builder` from `debugging.rs`: the crash label gets
the red custom style, successfully processed blocks the green custom style,
every other label the default node. -/
def create_node_builder (st : VisitorState) (label : Mid.BasicBlockId) :
    NodeBuilder :=
  if is_crash_label st label then
    Graph.create_node_with_custom_style label "bgcolor=\"red\""
  else if label ∈ st.successfully_processed_blocks then
    Graph.create_node_with_custom_style label "bgcolor=\"green\""
  else
    Graph.create_node label

/-- The row text `render_block` computes for one declared statement:
comments are wrapped in an orange font tag, everything else is its display
text. -/
def statement_row_text (statement : Mid.Statement) : String :=
  match statement with
  | .comment _ => "<font color=\"orange\">" ++ statement.display ++ "</font>"
  | _ => statement.display

/-- The row text `render_block` computes for an in-flight statement of the
crash block: wrapped in a red font tag. -/
def current_statement_row_text (statement : Mid.Statement) : String :=
  "<font color=\"red\">" ++ statement.display ++ "</font>"

/-- `Visitor::render_block` from `debugging.rs`: one row per declared
statement of the block, and, when the block is the crash label, one red row
per statement accumulated so far in `current_statements`. -/
def render_block (st : VisitorState) (label : Mid.BasicBlockId)
    (block : Mid.BasicBlock) (node_builder : NodeBuilder) : NodeBuilder :=
  let nb := block.statements.foldl
    (fun nb statement => nb.add_row_sequence [statement_row_text statement])
    node_builder
  if is_crash_label st label then
    st.current_statements.foldl
      (fun nb statement =>
        nb.add_row_sequence [current_statement_row_text statement])
      nb
  else
    nb

/-- `Visitor::render_successor` from `debugging.rs`: `Return` adds one exit
edge, `Goto` one regular edge, `GotoSwitch` one regular edge per listed
target (the guard expression is dropped). -/
def render_successor (label : Mid.BasicBlockId) (successor : Mid.Successor)
    (graph : Graph) : Graph :=
  match successor with
  | .Return => graph.add_exit_edge label "return"
  | .Goto target => graph.add_regular_edge label target
  | .GotoSwitch targets =>
      targets.foldl (fun graph p => graph.add_regular_edge label p.2) graph

/-- `Visitor::render_crash_state` from `debugging.rs`: for every assembled
block, build its styled node with its rows and render its successor
edges. -/
def render_crash_state (st : VisitorState) : Graph :=
  st.basic_blocks.foldl
    (fun graph lb =>
      render_successor lb.1 lb.2.successor
        (graph.build (render_block st lb.1 lb.2 (create_node_builder st lb.1))))
    (Graph.with_columns ["statement"])

/-- The artifact the `Drop` impl of `Visitor` (`debugging.rs`) hands to the
report sink when it fires: the category name, the file name
`format!("{}.{}.dot", source_filename, procedure_name)`, and the rendered
graph. -/
def crash_artifact (source_filename procedure_name : String)
    (st : VisitorState) : String × String × Graph :=
  ("graphviz_method_crashing_foldunfold",
   source_filename ++ "." ++ procedure_name ++ ".dot",
   render_crash_state st)

/-- The `Drop` impl of `Visitor` from `debugging.rs`: it always runs when
the visitor dies, but renders and reports only when `graphviz_on_crash` is
still set. -/
def drop_hook (source_filename procedure_name : String) (st : VisitorState) :
    Option (String × String × Graph) :=
  if st.graphviz_on_crash then
    some (crash_artifact source_filename procedure_name st)
  else
    none

end Inference

namespace Inference

open Graphviz

/-- Modelled from the spec: `Visitor::new` (in `inference/visitor/mod.rs`,
not under `src/`) creates the traversal context with empty bookkeeping and
the crash-graphviz hook "armed by default" exactly when the configuration
flag enabling the dump is set ("Gated behind a configuration flag; when
disabled the hook still exists but never performs the render"). -/
def Visitor.new (dump_flag : Bool) : VisitorState :=
  { basic_blocks := [],
    current_label := none,
    successfully_processed_blocks := [],
    current_statements := [],
    graphviz_on_crash := dump_flag }

/-- Modelled from the spec: `Visitor::cancel_crash_graphviz` (in
`inference/visitor/mod.rs`, not under `src/`) disarms the crash hook — "on
normal completion it is explicitly disarmed and produces no output". -/
def cancel_crash_graphviz (st : VisitorState) : VisitorState :=
  { st with graphviz_on_crash := false }

/-- Modelled from the spec: the per-statement action synthesis step of the
traversal (`inference/visitor/mod.rs` and `inference/ensurer.rs`, not under
`src/`).  Given the statement about to be processed it either returns the
ordered corrective actions to splice immediately before it, as statements,
or fails with the fatal unsatisfiable-permission error (`none`).  The
permission-state bookkeeping behind this choice is abstracted into the
function itself. -/
def Ensurer : Type :=
  Mid.Statement → Option (List Mid.Statement)

/-- Modelled from the spec: the statement loop of the traversal driver —
"for each statement in block order: synthesize and splice required actions
immediately before the statement".  Fails as soon as the synthesizer
fails. -/
def splice_statements (ensure : Ensurer) :
    List Mid.Statement → Option (List Mid.Statement)
  | [] => some []
  | statement :: rest =>
      match ensure statement with
      | none => none
      | some actions =>
          match splice_statements ensure rest with
          | none => none
          | some rest' => some (actions ++ statement :: rest')

/-- Modelled from the spec: the block loop of the traversal driver — each
block's statement list is rewritten by splicing, and its successor is kept
("propagate the … state along every successor edge named by the block's
Successor value"; "same block/edge topology as input, statements augmented
with inserted actions"). -/
def infer_blocks (ensure : Ensurer) :
    List (Mid.BasicBlockId × Mid.BasicBlock) →
    Option (List (Mid.BasicBlockId × Mid.BasicBlock))
  | [] => some []
  | (label, block) :: rest =>
      match splice_statements ensure block.statements with
      | none => none
      | some statements =>
          match infer_blocks ensure rest with
          | none => none
          | some rest' =>
              some ((label,
                     { statements := statements, successor := block.successor })
                    :: rest')

/-- Modelled from the spec: `Visitor::infer_procedure`
(`inference/visitor/mod.rs`, not under `src/`) — returns the rewritten
graph with "identical declared signature and identical block/edge
topology, whose statement lists have been augmented with explicit action
statements". -/
def infer_procedure (ensure : Ensurer) (procedure : Mid.ProcedureDecl) :
    Option Mid.ProcedureDecl :=
  match infer_blocks ensure procedure.basic_blocks with
  | none => none
  | some blocks => some { procedure with basic_blocks := blocks }

/-- `infer_shape_operations` from `inference/mod.rs`, restricted to its
value-level effect: run the visitor's `infer_procedure` on the input
procedure and return the shaped procedure (the graphviz dumps do not alter
it). -/
def infer_shape_operations (ensure : Ensurer) (procedure : Mid.ProcedureDecl) :
    Option Mid.ProcedureDecl :=
  infer_procedure ensure procedure

/-- The before-foldunfold artifact key emitted by `infer_shape_operations`
(`inference/mod.rs`): category `"graphviz_method_before_foldunfold"`, file
name `format!("{}.{}.dot", source_filename, procedure.name)`. -/
def before_foldunfold_key (source_filename procedure_name : String) :
    String × String :=
  ("graphviz_method_before_foldunfold",
   source_filename ++ "." ++ procedure_name ++ ".dot")

/-- The after-foldunfold artifact key emitted by `infer_shape_operations`
(`inference/mod.rs`). -/
def after_foldunfold_key (source_filename procedure_name : String) :
    String × String :=
  ("graphviz_method_after_foldunfold",
   source_filename ++ "." ++ procedure_name ++ ".dot")

/-- The crashing-foldunfold artifact key emitted by the `Drop` impl
(`debugging.rs`). -/
def crashing_foldunfold_key (source_filename procedure_name : String) :
    String × String :=
  ("graphviz_method_crashing_foldunfold",
   source_filename ++ "." ++ procedure_name ++ ".dot")

/-- The crash-artifact behaviour of one entire run of
`infer_shape_operations` (`inference/mod.rs`): the visitor is created with
the hook armed from the configuration flag; if `infer_procedure` succeeds,
`cancel_crash_graphviz` is called before the visitor is dropped, otherwise
the `?` operator drops the visitor immediately.  The result is the crash
artifact emitted by the drop hook, if any.  The visitor state at drop time
is the creation state updated by the traversal, abstracted here as a
function of the initial state. -/
def run_pass_crash_artifact (dump_flag : Bool) (infer_succeeds : Bool)
    (source_filename procedure_name : String)
    (traverse : VisitorState → VisitorState) :
    Option (String × String × Graph) :=
  let visitor := Visitor.new dump_flag
  let visitor := traverse visitor
  if infer_succeeds then
    drop_hook source_filename procedure_name (cancel_crash_graphviz visitor)
  else
    drop_hook source_filename procedure_name visitor

end Inference

namespace Fixtures

/-- A concrete action synthesizer used to exercise the pass: comments need
no actions, every other statement needs one unfold action. -/
def ens0 : Inference.Ensurer := fun s =>
  match s with
  | .comment _ => some []
  | .other _ => some [.other "unfold x"]

/-- A concrete two-block procedure. -/
def p0 : Mid.ProcedureDecl :=
  { name := "main", parameters := ["x"], returns := ["r"],
    basic_blocks :=
      [("bb1", { statements := [.comment "init", .other "consume x"],
                 successor := .Goto "bb2" }),
       ("bb2", { statements := [], successor := .Return })] }

/-- The shape-inference output for `p0` under `ens0`. -/
def p0_shaped : Mid.ProcedureDecl :=
  { name := "main", parameters := ["x"], returns := ["r"],
    basic_blocks :=
      [("bb1", { statements := [.comment "init", .other "unfold x",
                   .other "consume x"],
                 successor := .Goto "bb2" }),
       ("bb2", { statements := [], successor := .Return })] }

/-- A crash state: the traversal died in `B3` after `B1` and `B2` were
processed. -/
def st3 : Inference.VisitorState :=
  { basic_blocks :=
      [("B1", { statements := [], successor := .Goto "B2" }),
       ("B2", { statements := [], successor := .Goto "B3" }),
       ("B3", { statements := [.other "consume x"], successor := .Return })],
    current_label := some "B3",
    successfully_processed_blocks := ["B1", "B2"],
    current_statements := [.other "unfold x"],
    graphviz_on_crash := true }

/-- A crash state whose assembled blocks are exactly the processed block
`B1` plus the in-progress block `B2`. -/
def st6 : Inference.VisitorState :=
  { basic_blocks :=
      [("B1", { statements := [], successor := .Goto "B2" }),
       ("B2", { statements := [.other "consume x"], successor := .Return })],
    current_label := some "B2",
    successfully_processed_blocks := ["B1"],
    current_statements := [],
    graphviz_on_crash := true }

/-- An empty diagnostics graph. -/
def g4 : Graphviz.Graph := Graphviz.Graph.with_columns ["statement"]

/-- A fresh default-styled node builder. -/
def nb5 : Graphviz.NodeBuilder := Graphviz.Graph.create_node "B3"

/-- A Viper method with no blocks yet. -/
def m_base : Viper.CfgMethod :=
  { uuid := 7, method_name := "m", formal_args := [], formal_returns := [],
    local_vars := [], basic_blocks := [] }

/-- `m_base` after adding one block. -/
def m0 : Viper.CfgMethod := (m_base.add_block [] (.atomStmt "s1")).1

/-- The index returned by that `add_block` call. -/
def idx0 : Viper.CfgBlockIndex := (m_base.add_block [] (.atomStmt "s1")).2

/-- An index stamped by a different method (uuid 8). -/
def idx_other : Viper.CfgBlockIndex := { method_uuid := 8, block_index := 0 }

end Fixtures

namespace Inference

open Graphviz

/-- The node a single iteration of `render_crash_state` commits for one
labelled block. -/
def mk_node (st : VisitorState) (lb : Mid.BasicBlockId × Mid.BasicBlock) :
    NodeBuilder :=
  render_block st lb.1 lb.2 (create_node_builder st lb.1)

lemma is_crash_label_iff (st : VisitorState) (label : Mid.BasicBlockId) :
    is_crash_label st label = true ↔ st.current_label = some label := by
  cases h : st.current_label <;> simp [is_crash_label, h]

lemma foldl_add_row_sequence (f : Mid.Statement → String)
    (xs : List Mid.Statement) (nb : NodeBuilder) :
    xs.foldl (fun nb s => nb.add_row_sequence [f s]) nb =
      { nb with rows := nb.rows ++ xs.map (fun s => [f s]) } := by
  induction xs generalizing nb with
  | nil => simp
  | cons x xs ih =>
      rw [List.foldl_cons, ih]
      simp [NodeBuilder.add_row_sequence]

lemma render_block_eq (st : VisitorState) (label : Mid.BasicBlockId)
    (block : Mid.BasicBlock) (nb : NodeBuilder) :
    render_block st label block nb =
      { nb with rows := nb.rows ++
          block.statements.map (fun s => [statement_row_text s]) ++
          (if is_crash_label st label then
            st.current_statements.map (fun s => [current_statement_row_text s])
          else []) } := by
  unfold render_block
  by_cases h : is_crash_label st label <;>
    simp [h, foldl_add_row_sequence, List.append_assoc]

lemma render_block_name (st : VisitorState) (label : Mid.BasicBlockId)
    (block : Mid.BasicBlock) (nb : NodeBuilder) :
    (render_block st label block nb).name = nb.name := by
  rw [render_block_eq]

lemma render_block_style (st : VisitorState) (label : Mid.BasicBlockId)
    (block : Mid.BasicBlock) (nb : NodeBuilder) :
    (render_block st label block nb).style = nb.style := by
  rw [render_block_eq]

lemma foldl_add_regular_edge (label : String)
    (targets : List (Expr × Mid.BasicBlockId)) (g : Graph) :
    targets.foldl (fun g p => g.add_regular_edge label p.2) g =
      { g with regular_edges :=
          g.regular_edges ++ targets.map (fun p => (label, p.2)) } := by
  induction targets generalizing g with
  | nil => simp
  | cons t ts ih =>
      rw [List.foldl_cons, ih]
      simp [Graph.add_regular_edge]

lemma render_successor_nodes (label : Mid.BasicBlockId)
    (successor : Mid.Successor) (g : Graph) :
    (render_successor label successor g).nodes = g.nodes := by
  cases successor with
  | Return => rfl
  | Goto target => rfl
  | GotoSwitch targets => rw [render_successor, foldl_add_regular_edge]

lemma render_crash_state_nodes (st : VisitorState) :
    (render_crash_state st).nodes = st.basic_blocks.map (mk_node st) := by
  have aux : ∀ (bs : List (Mid.BasicBlockId × Mid.BasicBlock)) (g : Graph),
      (bs.foldl
        (fun graph lb =>
          render_successor lb.1 lb.2.successor
            (graph.build (render_block st lb.1 lb.2 (create_node_builder st lb.1))))
        g).nodes = g.nodes ++ bs.map (mk_node st) := by
    intro bs
    induction bs with
    | nil => intro g; simp
    | cons b bs ih =>
        intro g
        rw [List.foldl_cons, ih]
        simp [render_successor_nodes, Graph.build, mk_node]
  rw [render_crash_state, aux]
  simp [Graph.with_columns]

end Inference

namespace Inference

open Graphviz

lemma create_node_builder_name (st : VisitorState) (label : Mid.BasicBlockId) :
    (create_node_builder st label).name = label := by
  unfold create_node_builder
  split_ifs <;> rfl

lemma create_node_builder_style (st : VisitorState) (label : Mid.BasicBlockId) :
    (create_node_builder st label).style =
      if is_crash_label st label then NodeStyle.custom "bgcolor=\"red\""
      else if label ∈ st.successfully_processed_blocks then
        NodeStyle.custom "bgcolor=\"green\""
      else NodeStyle.default := by
  unfold create_node_builder
  split_ifs <;> rfl

lemma mk_node_name (st : VisitorState) (lb : Mid.BasicBlockId × Mid.BasicBlock) :
    (mk_node st lb).name = lb.1 := by
  rw [mk_node, render_block_name, create_node_builder_name]

lemma mk_node_style (st : VisitorState) (lb : Mid.BasicBlockId × Mid.BasicBlock) :
    (mk_node st lb).style = (create_node_builder st lb.1).style := by
  rw [mk_node, render_block_style]

lemma not_crash_label_of_ne (st : VisitorState) (label : Mid.BasicBlockId)
    (h : st.current_label ≠ some label) : is_crash_label st label = false := by
  cases hc : is_crash_label st label
  · rfl
  · exact absurd ((is_crash_label_iff st label).mp hc) h

end Inference

/-- C3: in the crash-diagnostics graph every node gets exactly one of three
styles — the node of the block equal to the active-at-failure label is the
crash (red) node, nodes of successfully processed blocks are processed
(green) nodes, and every remaining node keeps the default style.  The
hypothesis records the traversal state-machine invariant that the block
being processed is not also recorded as successfully processed. -/
theorem crash_graph_node_styles (st : Inference.VisitorState)
    (hdisj : ∀ l, st.current_label = some l →
      l ∉ st.successfully_processed_blocks) :
    ∀ nb ∈ (Inference.render_crash_state st).nodes,
      (st.current_label = some nb.name →
        nb.style = Graphviz.NodeStyle.custom "bgcolor=\"red\"") ∧
      (nb.name ∈ st.successfully_processed_blocks →
        nb.style = Graphviz.NodeStyle.custom "bgcolor=\"green\"") ∧
      (st.current_label ≠ some nb.name →
        nb.name ∉ st.successfully_processed_blocks →
        nb.style = Graphviz.NodeStyle.default) := by
  intro nb hnb
  rw [Inference.render_crash_state_nodes] at hnb
  obtain ⟨lb, hlb, rfl⟩ := List.mem_map.mp hnb
  rw [Inference.mk_node_name, Inference.mk_node_style,
    Inference.create_node_builder_style]
  refine ⟨?_, ?_, ?_⟩
  · intro hcur
    simp [(Inference.is_crash_label_iff st lb.1).mpr hcur]
  · intro hmem
    have hcl : Inference.is_crash_label st lb.1 = false := by
      cases hc : Inference.is_crash_label st lb.1
      · rfl
      · exact absurd hmem (hdisj lb.1 ((Inference.is_crash_label_iff st lb.1).mp hc))
    simp [hcl, hmem]
  · intro hcur hmem
    simp [Inference.not_crash_label_of_ne st lb.1 hcur, hmem]

/-- C4: for every rendered block, a `Return` successor produces exactly one
exit edge, a `Goto` successor exactly one regular edge to its target, and a
`GotoSwitch` successor exactly one regular edge per listed target with the
guards ignored; the other edge list is untouched in each case. -/
theorem render_successor_edges (g : Graphviz.Graph) (label : Mid.BasicBlockId) :
    ((Inference.render_successor label .Return g).exit_edges =
        g.exit_edges ++ [(label, "return")] ∧
      (Inference.render_successor label .Return g).regular_edges =
        g.regular_edges) ∧
    (∀ target,
      (Inference.render_successor label (.Goto target) g).regular_edges =
          g.regular_edges ++ [(label, target)] ∧
        (Inference.render_successor label (.Goto target) g).exit_edges =
          g.exit_edges) ∧
    (∀ targets,
      (Inference.render_successor label (.GotoSwitch targets) g).regular_edges =
          g.regular_edges ++ targets.map (fun p => (label, p.2)) ∧
        (Inference.render_successor label (.GotoSwitch targets) g).exit_edges =
          g.exit_edges) := by
  refine ⟨⟨rfl, rfl⟩, fun target => ⟨rfl, rfl⟩, fun targets => ?_⟩
  constructor <;> simp [Inference.render_successor,
    Inference.foldl_add_regular_edge]

/-- C5: the rows of a rendered block are the rows of its originally
declared statements followed, exactly when the block's label is the current
crash label, by the red-styled rows of the statements accumulated so far in
`current_statements`; the red overlay styling differs from the styling of
every declared statement. -/
theorem render_block_overlay (st : Inference.VisitorState)
    (label : Mid.BasicBlockId) (block : Mid.BasicBlock)
    (nb : Graphviz.NodeBuilder) :
    (Inference.render_block st label block nb).rows =
      nb.rows ++ block.statements.map (fun s => [Inference.statement_row_text s]) ++
        (if st.current_label = some label then
          st.current_statements.map
            (fun s => [Inference.current_statement_row_text s])
        else []) ∧
    (∀ s, Inference.current_statement_row_text s ≠
      Inference.statement_row_text s) := by
  constructor
  · rw [Inference.render_block_eq]
    by_cases h : st.current_label = some label
    · simp [h, (Inference.is_crash_label_iff st label).mpr h]
    · simp [h, Inference.not_crash_label_of_ne st label h]
  · intro s h
    cases s with
    | comment t =>
        have hl := congrArg String.length h
        simp only [Inference.current_statement_row_text,
          Inference.statement_row_text, Mid.Statement.display,
          String.length_append] at hl
        have h1 : String.length "<font color=\"red\">" = 18 := rfl
        have h2 : String.length "<font color=\"orange\">" = 21 := rfl
        have h3 : String.length "</font>" = 7 := rfl
        rw [h1, h2, h3] at hl
        omega
    | other t =>
        have hl := congrArg String.length h
        simp only [Inference.current_statement_row_text,
          Inference.statement_row_text, Mid.Statement.display,
          String.length_append] at hl
        have h1 : String.length "<font color=\"red\">" = 18 := rfl
        have h3 : String.length "</font>" = 7 := rfl
        rw [h1, h3] at hl
        omega

/-- C6: the node set of the crash-diagnostics graph is exactly the set of
blocks that were fully processed plus the block active at the moment of
failure.  The hypothesis is the traversal invariant that the assembled
`basic_blocks` map holds exactly those blocks (modelled from the spec: "one
node per processed or in-progress block" — the assembling driver
`inference/visitor/mod.rs` is not under `src/`). -/
theorem crash_graph_node_set (st : Inference.VisitorState)
    (hinv : ∀ l, (∃ b, (l, b) ∈ st.basic_blocks) ↔
      (l ∈ st.successfully_processed_blocks ∨ st.current_label = some l)) :
    ∀ l, (∃ nb ∈ (Inference.render_crash_state st).nodes, nb.name = l) ↔
      (l ∈ st.successfully_processed_blocks ∨ st.current_label = some l) := by
  intro l
  rw [← hinv l]
  constructor
  · rintro ⟨nb, hnb, rfl⟩
    rw [Inference.render_crash_state_nodes] at hnb
    obtain ⟨lb, hlb, rfl⟩ := List.mem_map.mp hnb
    rw [Inference.mk_node_name]
    exact ⟨lb.2, by simpa using hlb⟩
  · rintro ⟨b, hb⟩
    refine ⟨Inference.mk_node st (l, b), ?_, ?_⟩
    · rw [Inference.render_crash_state_nodes]
      exact List.mem_map.mpr ⟨(l, b), hb, rfl⟩
    · rw [Inference.mk_node_name]

/-- C2: the crashing-foldunfold artifact is produced exactly when the
traversal exits abnormally (the visitor is dropped without
`cancel_crash_graphviz`) and the crash-graphviz configuration flag is
armed; on normal completion the hook is disarmed and emits nothing, and
with the flag disabled the drop hook runs but never renders.  The
hypothesis states that the traversal itself never touches the arming
flag. -/
theorem crash_artifact_iff_abnormal_and_armed (dump_flag infer_succeeds : Bool)
    (source_filename procedure_name : String)
    (traverse : Inference.VisitorState → Inference.VisitorState)
    (hpres : ∀ st, (traverse st).graphviz_on_crash = st.graphviz_on_crash) :
    Inference.run_pass_crash_artifact dump_flag infer_succeeds
        source_filename procedure_name traverse =
      (if !infer_succeeds && dump_flag then
        some (Inference.crash_artifact source_filename procedure_name
          (traverse (Inference.Visitor.new dump_flag)))
      else none) := by
  unfold Inference.run_pass_crash_artifact Inference.drop_hook
    Inference.cancel_crash_graphviz
  have h := hpres (Inference.Visitor.new dump_flag)
  cases infer_succeeds <;> cases dump_flag <;>
    simp_all [Inference.Visitor.new]

/-- C7: lowering a `GotoSwitch` successor emits a statement sequence with
one conditional goto per (guard, target) pair, in listed order, followed by
a final assert-false fallback after all conditional gotos. -/
theorem successor_to_ast_goto_switch (method_name : String)
    (successors : List (Expr × Viper.CfgBlockIndex)) :
    ∃ stmts : List Viper.Stmt,
      Viper.successor_to_ast method_name (.GotoSwitch successors) =
        Viper.Stmt.seqn stmts [] ∧
      stmts.length = successors.length + 1 ∧
      (∀ (i : Nat) guard target, successors[i]? = some (guard, target) →
        stmts[i]? = some (Viper.Stmt.ifStmt guard
          (Viper.Stmt.goto (Viper.index_to_label method_name target.block_index))
          (Viper.Stmt.seqn [] []))) ∧
      stmts.getLast? = some (Viper.Stmt.assertStmt Expr.falseLit) := by
  refine ⟨(successors.map fun p =>
      Viper.Stmt.ifStmt p.1
        (Viper.Stmt.goto (Viper.index_to_label method_name p.2.block_index))
        (Viper.Stmt.seqn [] [])) ++ [Viper.Stmt.assertStmt Expr.falseLit],
    rfl, by simp, ?_, ?_⟩
  · intro i guard target hi
    have hlt : i < successors.length := by
      by_contra hge
      rw [List.getElem?_eq_none (Nat.le_of_not_lt hge)] at hi
      exact Option.noConfusion hi
    rw [List.getElem?_append_left (by simpa using hlt), List.getElem?_map, hi]
    rfl
  · exact List.getLast?_concat _

/-- C8 counterexample: the artifact file name produced for source file
`main.rs` and procedure `foo` is not `main.rs.foo` — the claim's
"source file name followed by the procedure name" — because the code
appends the `.dot` extension. -/
theorem artifact_key_counterexample :
    (Inference.before_foldunfold_key "main.rs" "foo").2 ≠
      "main.rs" ++ "." ++ "foo" := by
  decide

/-- C8 amended: all three graphviz artifacts are addressed by the file name
`<source-file>.<procedure-name>.dot`, each under its own distinct named
category, and the crash artifact built by the drop hook carries exactly the
crashing key. -/
theorem artifact_keys_spec (source_filename procedure_name : String) :
    (Inference.before_foldunfold_key source_filename procedure_name).2 =
        source_filename ++ "." ++ procedure_name ++ ".dot" ∧
    (Inference.after_foldunfold_key source_filename procedure_name).2 =
        source_filename ++ "." ++ procedure_name ++ ".dot" ∧
    (Inference.crashing_foldunfold_key source_filename procedure_name).2 =
        source_filename ++ "." ++ procedure_name ++ ".dot" ∧
    (∀ st, ((Inference.crash_artifact source_filename procedure_name st).1,
        (Inference.crash_artifact source_filename procedure_name st).2.1) =
      Inference.crashing_foldunfold_key source_filename procedure_name) ∧
    (Inference.before_foldunfold_key source_filename procedure_name).1 ≠
        (Inference.after_foldunfold_key source_filename procedure_name).1 ∧
    (Inference.before_foldunfold_key source_filename procedure_name).1 ≠
        (Inference.crashing_foldunfold_key source_filename procedure_name).1 ∧
    (Inference.after_foldunfold_key source_filename procedure_name).1 ≠
        (Inference.crashing_foldunfold_key source_filename procedure_name).1 := by
  refine ⟨rfl, rfl, rfl, fun st => rfl, ?_, ?_, ?_⟩
  · exact fun h =>
      (by decide : ¬ ("graphviz_method_before_foldunfold" =
        "graphviz_method_after_foldunfold")) h
  · exact fun h =>
      (by decide : ¬ ("graphviz_method_before_foldunfold" =
        "graphviz_method_crashing_foldunfold")) h
  · exact fun h =>
      (by decide : ¬ ("graphviz_method_after_foldunfold" =
        "graphviz_method_crashing_foldunfold")) h

/-- C9 counterexample: the `Successor` type of `src/src/cfg_method.rs` has
a value — `Unreachable` — that is none of the three alternatives `Return`,
`Goto`, `GotoSwitch`, so that type does not have exactly those three
alternatives. -/
theorem viper_successor_counterexample :
    ¬ (Viper.Successor.Unreachable = Viper.Successor.Return ∨
      (∃ t, Viper.Successor.Unreachable = Viper.Successor.Goto t) ∨
      (∃ ts, Viper.Successor.Unreachable = Viper.Successor.GotoSwitch ts)) := by
  rintro (h | ⟨t, h⟩ | ⟨ts, h⟩) <;> exact Viper.Successor.noConfusion h

/-- C9 amended: the mid-level `Successor` consumed by the shape-inference
pass has exactly the three alternatives `Return`, `Goto`, `GotoSwitch`
(matched exhaustively by its consumers), while the Viper-level `Successor`
of `cfg_method.rs` has exactly five — those three plus `Unreachable` and
`GotoIf` — and `successor_to_ast`'s exhaustive match classifies them
accordingly. -/
theorem successor_alternatives :
    (∀ s : Mid.Successor, s = .Return ∨ (∃ t, s = .Goto t) ∨
      (∃ ts, s = .GotoSwitch ts)) ∧
    (∀ s : Viper.Successor, s = .Unreachable ∨ s = .Return ∨
      (∃ t, s = .Goto t) ∨ (∃ ts, s = .GotoSwitch ts) ∨
      (∃ e a b, s = .GotoIf e a b)) ∧
    (∀ s : Viper.Successor, Viper.Successor.isReturnGotoOrSwitch s = true ↔
      (s = .Return ∨ (∃ t, s = .Goto t) ∨ (∃ ts, s = .GotoSwitch ts))) := by
  refine ⟨fun s => ?_, fun s => ?_, fun s => ?_⟩
  · cases s with
    | Return => exact Or.inl rfl
    | Goto t => exact Or.inr (Or.inl ⟨t, rfl⟩)
    | GotoSwitch ts => exact Or.inr (Or.inr ⟨ts, rfl⟩)
  · cases s with
    | Unreachable => exact Or.inl rfl
    | Return => exact Or.inr (Or.inl rfl)
    | Goto t => exact Or.inr (Or.inr (Or.inl ⟨t, rfl⟩))
    | GotoSwitch ts => exact Or.inr (Or.inr (Or.inr (Or.inl ⟨ts, rfl⟩)))
    | GotoIf e a b => exact Or.inr (Or.inr (Or.inr (Or.inr ⟨e, a, b, rfl⟩)))
  · cases s <;> simp [Viper.Successor.isReturnGotoOrSwitch]

/-- C10: an index obtained from a method's own `add_block` carries that
method's uuid and is in range; `set_successor` succeeds on a matching
in-range index, replacing exactly the successor of the indexed block while
keeping its invariants and statement, every other block, and the method's
signature fields; and it panics (assertion failure) on an index stamped by
a different method. -/
theorem set_successor_spec (m : Viper.CfgMethod) (index : Viper.CfgBlockIndex)
    (s : Viper.Successor) :
    (∀ invs stmt,
      (m.add_block invs stmt).2.method_uuid = (m.add_block invs stmt).1.uuid ∧
      (m.add_block invs stmt).2.block_index <
        (m.add_block invs stmt).1.basic_blocks.length) ∧
    (index.method_uuid = m.uuid →
      index.block_index < m.basic_blocks.length →
      ∃ m' b, m.set_successor index s = some m' ∧
        m.basic_blocks[index.block_index]? = some b ∧
        m'.basic_blocks[index.block_index]? =
          some { b with successor := s } ∧
        (∀ j, j ≠ index.block_index →
          m'.basic_blocks[j]? = m.basic_blocks[j]?) ∧
        m'.basic_blocks.length = m.basic_blocks.length ∧
        m'.uuid = m.uuid ∧
        m'.method_name = m.method_name ∧
        m'.formal_args = m.formal_args ∧
        m'.formal_returns = m.formal_returns ∧
        m'.local_vars = m.local_vars) ∧
    (index.method_uuid ≠ m.uuid → m.set_successor index s = none) := by
  refine ⟨?_, ?_, ?_⟩
  · intro invs stmt
    constructor
    · rfl
    · simp [Viper.CfgMethod.add_block]
  · intro hu hlt
    have heq : m.set_successor index s =
        some { m with basic_blocks := m.basic_blocks.set index.block_index { m.basic_blocks.get ⟨index.block_index, hlt⟩ with successor := s } } := by
      rw [Viper.CfgMethod.set_successor, if_pos hu, dif_pos hlt]
    refine ⟨_, m.basic_blocks.get ⟨index.block_index, hlt⟩, heq,
      List.getElem?_eq_getElem hlt, ?_, ?_, ?_, rfl, rfl, rfl, rfl, rfl⟩
    · exact List.getElem?_set_eq_of_lt _ (by simpa using hlt)
    · intro j hj
      exact List.getElem?_set_ne (fun h => hj h.symm)
    · simp
  · intro hu
    rw [Viper.CfgMethod.set_successor, if_neg hu]

namespace Inference

lemma splice_statements_sublist (ensure : Ensurer) :
    ∀ (ss ss' : List Mid.Statement),
      splice_statements ensure ss = some ss' → ss.Sublist ss' := by
  intro ss
  induction ss with
  | nil =>
      intro ss' h
      cases h
      exact List.Sublist.refl _
  | cons s rest ih =>
      intro ss' h
      cases hens : ensure s with
      | none => rw [splice_statements, hens] at h; exact Option.noConfusion h
      | some actions =>
          cases hrec : splice_statements ensure rest with
          | none =>
              rw [splice_statements, hens, hrec] at h
              exact Option.noConfusion h
          | some rest' =>
              rw [splice_statements, hens, hrec] at h
              cases h
              exact List.Sublist.trans
                (List.Sublist.cons₂ s (ih rest' hrec))
                (List.sublist_append_right actions (s :: rest'))

lemma infer_blocks_forall₂ (ensure : Ensurer) :
    ∀ (bs bs' : List (Mid.BasicBlockId × Mid.BasicBlock)),
      infer_blocks ensure bs = some bs' →
      List.Forall₂
        (fun lb lb' : Mid.BasicBlockId × Mid.BasicBlock =>
          lb'.1 = lb.1 ∧ lb'.2.successor = lb.2.successor ∧
            lb.2.statements.Sublist lb'.2.statements)
        bs bs' := by
  intro bs
  induction bs with
  | nil =>
      intro bs' h
      cases h
      exact List.Forall₂.nil
  | cons lb rest ih =>
      intro bs' h
      obtain ⟨label, block⟩ := lb
      cases hsp : splice_statements ensure block.statements with
      | none => rw [infer_blocks, hsp] at h; exact Option.noConfusion h
      | some statements =>
          cases hrec : infer_blocks ensure rest with
          | none =>
              rw [infer_blocks, hsp, hrec] at h
              exact Option.noConfusion h
          | some rest' =>
              rw [infer_blocks, hsp, hrec] at h
              cases h
              exact List.Forall₂.cons
                ⟨rfl, rfl, splice_statements_sublist ensure _ _ hsp⟩
                (ih rest' hrec)

lemma forall₂_fst_eq {R : Mid.BasicBlockId × Mid.BasicBlock →
      Mid.BasicBlockId × Mid.BasicBlock → Prop}
    (hR : ∀ lb lb', R lb lb' → lb'.1 = lb.1) :
    ∀ {bs bs'}, List.Forall₂ R bs bs' →
      bs'.map Prod.fst = bs.map Prod.fst := by
  intro bs bs' h
  induction h with
  | nil => rfl
  | cons hr _ ih => simpa [hR _ _ hr] using ih

end Inference

/-- C1: when the pass succeeds, the output procedure of
`infer_shape_operations` has the same name, parameters and returns, the
same block labels in the same order, and for every block the same
successor; the statement list of each block only grows by insertions (the
input statements form a sublist of the output statements). -/
theorem infer_shape_operations_topology (ensure : Inference.Ensurer)
    (procedure shaped : Mid.ProcedureDecl)
    (h : Inference.infer_shape_operations ensure procedure = some shaped) :
    shaped.name = procedure.name ∧
    shaped.parameters = procedure.parameters ∧
    shaped.returns = procedure.returns ∧
    shaped.basic_blocks.map Prod.fst = procedure.basic_blocks.map Prod.fst ∧
    List.Forall₂
      (fun lb lb' : Mid.BasicBlockId × Mid.BasicBlock =>
        lb'.1 = lb.1 ∧ lb'.2.successor = lb.2.successor ∧
          lb.2.statements.Sublist lb'.2.statements)
      procedure.basic_blocks shaped.basic_blocks := by
  rw [Inference.infer_shape_operations, Inference.infer_procedure] at h
  cases hb : Inference.infer_blocks ensure procedure.basic_blocks with
  | none => rw [hb] at h; exact Option.noConfusion h
  | some blocks =>
      rw [hb] at h
      cases h
      have hf := Inference.infer_blocks_forall₂ ensure _ _ hb
      exact ⟨rfl, rfl, rfl,
        Inference.forall₂_fst_eq (fun lb lb' hr => hr.1) hf, hf⟩

/-- C1 witness: the pass succeeds on the concrete procedure `p0` and the
topology-preservation theorem applies to it. -/
theorem infer_shape_operations_topology_witness :
    Inference.infer_shape_operations Fixtures.ens0 Fixtures.p0 =
      some Fixtures.p0_shaped ∧
    (Fixtures.p0_shaped.name = Fixtures.p0.name ∧
     Fixtures.p0_shaped.parameters = Fixtures.p0.parameters ∧
     Fixtures.p0_shaped.returns = Fixtures.p0.returns ∧
     Fixtures.p0_shaped.basic_blocks.map Prod.fst =
       Fixtures.p0.basic_blocks.map Prod.fst ∧
     List.Forall₂
       (fun lb lb' : Mid.BasicBlockId × Mid.BasicBlock =>
         lb'.1 = lb.1 ∧ lb'.2.successor = lb.2.successor ∧
           lb.2.statements.Sublist lb'.2.statements)
       Fixtures.p0.basic_blocks Fixtures.p0_shaped.basic_blocks) :=
  ⟨rfl, infer_shape_operations_topology Fixtures.ens0 Fixtures.p0
    Fixtures.p0_shaped rfl⟩

/-- C2 witness: with the flag armed, a failing traversal (identity
traversal state update), and concrete names, the crash artifact is
emitted. -/
theorem crash_artifact_iff_witness :
    (∀ st : Inference.VisitorState,
      (id st).graphviz_on_crash = st.graphviz_on_crash) ∧
    Inference.run_pass_crash_artifact true false "main.rs" "foo" id =
      (if !false && true then
        some (Inference.crash_artifact "main.rs" "foo"
          (id (Inference.Visitor.new true)))
      else none) :=
  ⟨fun _ => rfl,
    crash_artifact_iff_abnormal_and_armed true false "main.rs" "foo" id
      (fun _ => rfl)⟩

/-- C3 witness: in the concrete crash state `st3` (crash in `B3` after
`B1`, `B2` were processed) every rendered node obeys the three-way
styling. -/
theorem crash_graph_node_styles_witness :
    (∀ l, Fixtures.st3.current_label = some l →
      l ∉ Fixtures.st3.successfully_processed_blocks) ∧
    (∀ nb ∈ (Inference.render_crash_state Fixtures.st3).nodes,
      (Fixtures.st3.current_label = some nb.name →
        nb.style = Graphviz.NodeStyle.custom "bgcolor=\"red\"") ∧
      (nb.name ∈ Fixtures.st3.successfully_processed_blocks →
        nb.style = Graphviz.NodeStyle.custom "bgcolor=\"green\"") ∧
      (Fixtures.st3.current_label ≠ some nb.name →
        nb.name ∉ Fixtures.st3.successfully_processed_blocks →
        nb.style = Graphviz.NodeStyle.default)) :=
  ⟨by intro l hl; injection hl with h; subst h; decide,
   crash_graph_node_styles Fixtures.st3
     (by intro l hl; injection hl with h; subst h; decide)⟩

/-- C4 witness: the edge rendering theorem instantiated at the empty graph
and block label `B1`. -/
theorem render_successor_edges_witness :
    ((Inference.render_successor "B1" .Return Fixtures.g4).exit_edges =
        Fixtures.g4.exit_edges ++ [("B1", "return")] ∧
      (Inference.render_successor "B1" .Return Fixtures.g4).regular_edges =
        Fixtures.g4.regular_edges) ∧
    (∀ target,
      (Inference.render_successor "B1" (.Goto target)
          Fixtures.g4).regular_edges =
          Fixtures.g4.regular_edges ++ [("B1", target)] ∧
        (Inference.render_successor "B1" (.Goto target)
          Fixtures.g4).exit_edges = Fixtures.g4.exit_edges) ∧
    (∀ targets,
      (Inference.render_successor "B1" (.GotoSwitch targets)
          Fixtures.g4).regular_edges =
          Fixtures.g4.regular_edges ++ targets.map (fun p => ("B1", p.2)) ∧
        (Inference.render_successor "B1" (.GotoSwitch targets)
          Fixtures.g4).exit_edges = Fixtures.g4.exit_edges) :=
  render_successor_edges Fixtures.g4 "B1"

/-- C5 witness: the overlay theorem instantiated at the concrete crash
state `st3`, its crash block `B3`, and a fresh node builder. -/
theorem render_block_overlay_witness :
    (Inference.render_block Fixtures.st3 "B3"
        { statements := [.other "consume x"], successor := .Return }
        Fixtures.nb5).rows =
      Fixtures.nb5.rows ++
        [Mid.Statement.other "consume x"].map
          (fun s => [Inference.statement_row_text s]) ++
        (if Fixtures.st3.current_label = some "B3" then
          Fixtures.st3.current_statements.map
            (fun s => [Inference.current_statement_row_text s])
        else []) ∧
    (∀ s, Inference.current_statement_row_text s ≠
      Inference.statement_row_text s) :=
  render_block_overlay Fixtures.st3 "B3"
    { statements := [.other "consume x"], successor := .Return } Fixtures.nb5

/-- C6 witness: for the concrete state `st6`, where the assembled blocks
are exactly the processed `B1` plus the in-progress `B2`, the rendered node
set is exactly that set of labels. -/
theorem crash_graph_node_set_witness :
    (∀ l, (∃ b, (l, b) ∈ Fixtures.st6.basic_blocks) ↔
      (l ∈ Fixtures.st6.successfully_processed_blocks ∨
        Fixtures.st6.current_label = some l)) ∧
    (∀ l, (∃ nb ∈ (Inference.render_crash_state Fixtures.st6).nodes,
        nb.name = l) ↔
      (l ∈ Fixtures.st6.successfully_processed_blocks ∨
        Fixtures.st6.current_label = some l)) := by
  have hinv : ∀ l, (∃ b, (l, b) ∈ Fixtures.st6.basic_blocks) ↔
      (l ∈ Fixtures.st6.successfully_processed_blocks ∨
        Fixtures.st6.current_label = some l) := by
    intro l
    constructor
    · rintro ⟨b, hb⟩
      simp only [Fixtures.st6, List.mem_cons, List.not_mem_nil,
        or_false] at hb
      rcases hb with h | h
      · injection h with h1 h2
        subst h1
        exact Or.inl (by decide)
      · injection h with h1 h2
        subst h1
        exact Or.inr (by decide)
    · rintro (h | h)
      · have h1 : l = "B1" := by simpa [Fixtures.st6] using h
        subst h1
        exact ⟨{ statements := [], successor := .Goto "B2" }, by decide⟩
      · have h2 : some "B2" = some l := h
        injection h2 with h3
        subst h3
        exact ⟨{ statements := [.other "consume x"], successor := .Return },
          by decide⟩
  exact ⟨hinv, crash_graph_node_set Fixtures.st6 hinv⟩

/-- C7 witness: the `GotoSwitch` lowering theorem instantiated at a
concrete two-target switch. -/
theorem successor_to_ast_goto_switch_witness :
    ∃ stmts : List Viper.Stmt,
      Viper.successor_to_ast "m"
          (.GotoSwitch [(Expr.atom "c1", { method_uuid := 7, block_index := 1 }),
            (Expr.atom "c2", { method_uuid := 7, block_index := 2 })]) =
        Viper.Stmt.seqn stmts [] ∧
      stmts.length =
        [(Expr.atom "c1",
            ({ method_uuid := 7, block_index := 1 } : Viper.CfgBlockIndex)),
          (Expr.atom "c2", { method_uuid := 7, block_index := 2 })].length + 1 ∧
      (∀ (i : Nat) guard target,
        [(Expr.atom "c1",
            ({ method_uuid := 7, block_index := 1 } : Viper.CfgBlockIndex)),
          (Expr.atom "c2", { method_uuid := 7, block_index := 2 })][i]? =
            some (guard, target) →
        stmts[i]? = some (Viper.Stmt.ifStmt guard
          (Viper.Stmt.goto (Viper.index_to_label "m" target.block_index))
          (Viper.Stmt.seqn [] []))) ∧
      stmts.getLast? = some (Viper.Stmt.assertStmt Expr.falseLit) :=
  successor_to_ast_goto_switch "m"
    [(Expr.atom "c1", { method_uuid := 7, block_index := 1 }),
     (Expr.atom "c2", { method_uuid := 7, block_index := 2 })]

/-- C8 witness: the amended artifact-key theorem instantiated at concrete
source file and procedure names. -/
theorem artifact_keys_spec_witness :
    (Inference.before_foldunfold_key "main.rs" "foo").2 =
        "main.rs" ++ "." ++ "foo" ++ ".dot" ∧
    (Inference.after_foldunfold_key "main.rs" "foo").2 =
        "main.rs" ++ "." ++ "foo" ++ ".dot" ∧
    (Inference.crashing_foldunfold_key "main.rs" "foo").2 =
        "main.rs" ++ "." ++ "foo" ++ ".dot" ∧
    (∀ st, ((Inference.crash_artifact "main.rs" "foo" st).1,
        (Inference.crash_artifact "main.rs" "foo" st).2.1) =
      Inference.crashing_foldunfold_key "main.rs" "foo") ∧
    (Inference.before_foldunfold_key "main.rs" "foo").1 ≠
        (Inference.after_foldunfold_key "main.rs" "foo").1 ∧
    (Inference.before_foldunfold_key "main.rs" "foo").1 ≠
        (Inference.crashing_foldunfold_key "main.rs" "foo").1 ∧
    (Inference.after_foldunfold_key "main.rs" "foo").1 ≠
        (Inference.crashing_foldunfold_key "main.rs" "foo").1 :=
  artifact_keys_spec "main.rs" "foo"

/-- C9 witness: the alternatives theorem applied to concrete successor
values of both layers. -/
theorem successor_alternatives_witness :
    (Mid.Successor.Goto "B1" = .Return ∨
      (∃ t, Mid.Successor.Goto "B1" = .Goto t) ∨
      (∃ ts, Mid.Successor.Goto "B1" = .GotoSwitch ts)) ∧
    (Viper.Successor.isReturnGotoOrSwitch .Unreachable = true ↔
      (Viper.Successor.Unreachable = .Return ∨
        (∃ t, Viper.Successor.Unreachable = .Goto t) ∨
        (∃ ts, Viper.Successor.Unreachable = .GotoSwitch ts))) :=
  ⟨successor_alternatives.1 (.Goto "B1"),
   successor_alternatives.2.2 .Unreachable⟩

/-- C10 witness: the index returned by `add_block` on the concrete method
belongs to it and is in range, `set_successor` succeeds there, and an index
stamped with a foreign uuid makes `set_successor` panic. -/
theorem set_successor_spec_witness :
    Fixtures.idx0.method_uuid = Fixtures.m0.uuid ∧
    Fixtures.idx0.block_index < Fixtures.m0.basic_blocks.length ∧
    (∃ m' b, Fixtures.m0.set_successor Fixtures.idx0 .Return = some m' ∧
      Fixtures.m0.basic_blocks[Fixtures.idx0.block_index]? = some b ∧
      m'.basic_blocks[Fixtures.idx0.block_index]? =
        some { b with successor := .Return } ∧
      (∀ j, j ≠ Fixtures.idx0.block_index →
        m'.basic_blocks[j]? = Fixtures.m0.basic_blocks[j]?) ∧
      m'.basic_blocks.length = Fixtures.m0.basic_blocks.length ∧
      m'.uuid = Fixtures.m0.uuid ∧
      m'.method_name = Fixtures.m0.method_name ∧
      m'.formal_args = Fixtures.m0.formal_args ∧
      m'.formal_returns = Fixtures.m0.formal_returns ∧
      m'.local_vars = Fixtures.m0.local_vars) ∧
    Fixtures.idx_other.method_uuid ≠ Fixtures.m0.uuid ∧
    Fixtures.m0.set_successor Fixtures.idx_other .Return = none :=
  ⟨rfl, by decide,
   (set_successor_spec Fixtures.m0 Fixtures.idx0 .Return).2.1 rfl (by decide),
   by decide,
   (set_successor_spec Fixtures.m0 Fixtures.idx_other .Return).2.2 (by decide)⟩
